import Mathlib

/-!
Shallow embedding of the DefiDazzleAgent opportunity-aggregation and
risk-scoring engine (Portfolio Optimiser Core), together with theorems
settling the specification claims about it.

Conventions of the embedding:
* Python `float` / `Decimal` arithmetic is modelled exactly over `ℚ`
  (the claims under scrutiny are algebraic, not rounding claims); the
  one genuinely irrational operation (`math.sqrt` in the volatility
  score) is modelled over `ℝ` with `Real.sqrt`.
* A raised Python exception is modelled as `Except.error`; a Python
  `None` result is modelled as `Option.none`.
* On-chain reads (contract calls, factory lookups) are modelled as an
  explicit environment record passed to the function, so the functions
  stay pure and executable.
-/

/-- BSC blocks per year, `APRCalculator.BLOCKS_PER_YEAR` (and the local
`blocks_per_year` constant of `DataFetcher.get_lending_borrow_rates`). -/
def BLOCKS_PER_YEAR : ℕ := 10512000

/-- `APRCalculator.PRECISION = Decimal('1e18')`. -/
def PRECISION : ℚ := 10 ^ 18

/-! ## APRCalculator (calculations/apr_calculator.py) -/

/-- `APRCalculator.calculate_pancake_apr`: CAKE-emission-weighted farm APR.
Inputs are the values the contract calls return (`cakePerBlock`,
`totalAllocPoint`, `poolInfo[1]`) plus the CAKE price and pool TVL. -/
def calculate_pancake_apr (cake_per_block total_alloc_points pool_alloc_points : ℚ)
    (cake_price pool_tvl : ℚ) : ℚ :=
  if total_alloc_points = 0 ∨ pool_tvl = 0 then 0
  else
    let yearly_cake_rewards := cake_per_block * (BLOCKS_PER_YEAR : ℚ) * pool_alloc_points / total_alloc_points
    let yearly_cake_usd := yearly_cake_rewards * cake_price / PRECISION
    yearly_cake_usd / pool_tvl * 100

/-- `APRCalculator.calculate_biswap_apr`: identical shape with BSW emissions. -/
def calculate_biswap_apr (bsw_per_block total_alloc_points pool_alloc_points : ℚ)
    (bsw_price pool_tvl : ℚ) : ℚ :=
  if total_alloc_points = 0 ∨ pool_tvl = 0 then 0
  else
    let yearly_bsw := bsw_per_block * (BLOCKS_PER_YEAR : ℚ) * pool_alloc_points / total_alloc_points
    let yearly_bsw_usd := yearly_bsw * bsw_price / PRECISION
    yearly_bsw_usd / pool_tvl * 100

/-- `APRCalculator.calculate_alpaca_reward_apy`: ALPACA-emission-weighted
reward APY. -/
def calculate_alpaca_reward_apy (alpaca_per_block total_alloc_point pool_alloc_points : ℚ)
    (alpaca_price tvl : ℚ) : ℚ :=
  if total_alloc_point = 0 ∨ tvl = 0 then 0
  else
    let yearly_alpaca := alpaca_per_block * (BLOCKS_PER_YEAR : ℚ) * pool_alloc_points / total_alloc_point
    let yearly_alpaca_usd := yearly_alpaca * alpaca_price / PRECISION
    yearly_alpaca_usd / tvl * 100

/-- `APRCalculator.calculate_venus_rates`: the code annualizes the raw
per-block rates LINEARLY — `((1 + rate * BLOCKS_PER_YEAR / PRECISION) - 1) * 100`
for each of the supply and borrow rates. -/
def calculate_venus_rates (supply_rate borrow_rate : ℕ) : ℚ × ℚ :=
  (((1 + (supply_rate : ℚ) * (BLOCKS_PER_YEAR : ℚ) / PRECISION) - 1) * 100,
   ((1 + (borrow_rate : ℚ) * (BLOCKS_PER_YEAR : ℚ) / PRECISION) - 1) * 100)

/-- `DataFetcher.get_lending_borrow_rates`: the code COMPOUNDS the
per-block rate — `((1 + rate / 1e18) ** blocks_per_year - 1) * 100`. -/
def get_lending_borrow_rates (supply_rate borrow_rate : ℕ) : ℚ × ℚ :=
  (((1 + (supply_rate : ℚ) / PRECISION) ^ BLOCKS_PER_YEAR - 1) * 100,
   ((1 + (borrow_rate : ℚ) / PRECISION) ^ BLOCKS_PER_YEAR - 1) * 100)

/-- `APRCalculator.calculate_alpaca_base_apy`: the code returns
`(total_debt / total_token) * 0.15 * 100` (utilization times the 15%
ceiling), returning 0 when `total_token = 0`.  Note the code body uses
the utilization itself, even though its own docstring documents
`(total_token - total_debt) / total_token * lending_apr`. -/
def calculate_alpaca_base_apy (total_token total_debt : ℚ) : ℚ :=
  if total_token = 0 then 0
  else
    let utilization := total_debt / total_token
    utilization * (15 / 100) * 100

/-! ## RiskCalculator (calculations/risk_calculator.py) -/

/-- `RiskCalculator.RISK_WEIGHTS` as a record, so that the claim about
arbitrary weight configurations is expressible. -/
structure RiskWeights where
  tvl : ℚ
  volatility : ℚ
  age : ℚ
  il : ℚ
  protocol : ℚ

/-- The default weight table of `RiskCalculator.__init__`. -/
def RISK_WEIGHTS : RiskWeights :=
  { tvl := 25 / 100, volatility := 20 / 100, age := 15 / 100
    il := 20 / 100, protocol := 20 / 100 }

/-- `RiskCalculator.calculate_composite_risk_score`: weighted sum with
the protocol factor inverted, clamped into `[0, 1]` via
`min(1.0, max(0.0, composite_score))`. -/
def calculate_composite_risk_score (w : RiskWeights)
    (tvl_score volatility_score age_score il_risk protocol_score : ℚ) : ℚ :=
  let composite_score :=
    tvl_score * w.tvl + volatility_score * w.volatility + age_score * w.age +
      il_risk * w.il + (1 - protocol_score) * w.protocol
  min 1 (max 0 composite_score)

/-- The `TVL_THRESHOLDS` dict of `RiskCalculator.calculate_tvl_risk`, in
Python insertion (iteration) order. -/
def TVL_THRESHOLDS : List (ℚ × ℚ) :=
  [(10000000, 1/10), (5000000, 3/10), (1000000, 1/2), (500000, 7/10), (0, 9/10)]

/-- The threshold loop: return the risk of the first `(threshold, risk)`
entry with `tvl ≥ threshold`; `1.0` if none matches. -/
def firstThresholdRisk : List (ℚ × ℚ) → ℚ → ℚ
  | [], _ => 1
  | (t, r) :: rest, x => if x ≥ t then r else firstThresholdRisk rest x

/-- `RiskCalculator.calculate_tvl_risk`. -/
def calculate_tvl_risk (tvl : ℚ) : ℚ :=
  firstThresholdRisk TVL_THRESHOLDS tvl

/-- The spec's description of the TVL-risk table, written as the spec
words it ("selecting the first threshold the input meets or exceeds when
scanning from highest to lowest"): ≥10M→0.1, ≥5M→0.3, ≥1M→0.5,
≥500K→0.7, else→0.9.  Used to compare the code against the spec. -/
def tvlRiskSpec (tvl : ℚ) : ℚ :=
  if tvl ≥ 10000000 then 1/10
  else if tvl ≥ 5000000 then 3/10
  else if tvl ≥ 1000000 then 1/2
  else if tvl ≥ 500000 then 7/10
  else 9/10

/-! ## Volatility (RiskCalculator.calculate_pool_volatility) -/

/-- `np.diff(price_history) / price_history[:-1]`: element-wise daily
returns `(p[i+1] - p[i]) / p[i]`. -/
def dailyReturns (price_history : List ℚ) : List ℚ :=
  List.zipWith (fun prev next => (next - prev) / prev) price_history price_history.tail

/-- Arithmetic mean of a list of rationals (`np.mean`, denominator the
list length; `0` for the empty list since `x / 0 = 0` in `ℚ`). -/
def listMean (xs : List ℚ) : ℚ := xs.sum / xs.length

/-- Population variance (`np.std(xs) ** 2`, i.e. `ddof = 0`). -/
def listVariance (xs : List ℚ) : ℚ :=
  (xs.map (fun x => (x - listMean xs) ^ 2)).sum / xs.length

/-- `RiskCalculator.calculate_pool_volatility`: returns `0.0` for fewer
than two price points, otherwise `min(1.0, std(returns) * sqrt(365))`
where `std` is the population standard deviation. -/
noncomputable def calculate_pool_volatility (price_history : List ℚ) : ℝ :=
  if price_history.length < 2 then 0
  else
    let daily_vol : ℝ := Real.sqrt (listVariance (dailyReturns price_history) : ℚ)
    let annual_vol := daily_vol * Real.sqrt 365
    min 1 annual_vol

/-! ## PriceCalculator (calculations/price_calculator.py)

The factory / pair / token contracts are modelled as an environment:
`getPair` is the factory lookup (`none` models the zero address),
`reserves` gives a pair contract's `getReserves()` answer in the pair's
own canonical token order (a PancakeSwap pair stores `token0`/`token1`
sorted by address, independent of how `getPair` was queried, and
`getPair` itself is symmetric), and `decimals` gives each token
contract's `decimals()`. -/

/-- Raw `getReserves()` answer of a pair contract, in the pair's
canonical token order. -/
structure PairReserves where
  reserve0 : ℕ
  reserve1 : ℕ

/-- The on-chain world a `PriceCalculator` reads from. -/
structure PriceEnv where
  getPair : String → String → Option String
  reserves : String → PairReserves
  decimals : String → ℕ

/-- `PriceCalculator.WBNB`. -/
def WBNB : String := "0xbb4CdB9CBd36B01bD1cBaEBF2De08d9173bc095c"

/-- `PriceCalculator.BUSD`. -/
def BUSD : String := "0xe9e7CEA3DedcA5984780Bafc599bD69ADd087D56"

/-- `PriceCalculator._get_token_price_from_pair`: look the pair up in
the factory, decimal-normalize the two raw reserves by the two ARGUMENT
tokens' decimals, return `none` if the pair is absent or either
normalized reserve is zero, else `reserve1 / reserve0`.  (The code never
consults the pair's own `token0()`, so the reserves are used in the
pair's canonical order whatever the argument order.) -/
def get_token_price_from_pair (env : PriceEnv) (token0_address token1_address : String) :
    Option ℚ :=
  match env.getPair token0_address token1_address with
  | none => none
  | some pair_address =>
    let rs := env.reserves pair_address
    let reserve0 : ℚ := (rs.reserve0 : ℚ) / 10 ^ env.decimals token0_address
    let reserve1 : ℚ := (rs.reserve1 : ℚ) / 10 ^ env.decimals token1_address
    if reserve0 = 0 ∨ reserve1 = 0 then none
    else some (reserve1 / reserve0)

/-- `PriceCalculator.get_token_price`: direct BUSD pair first, then a
2-hop route through WBNB; if neither exists the code executes
`raise Exception(f"No valid price path found for token ...")` (and the
`except` clause logs and re-raises), modelled as `Except.error`. -/
def get_token_price (env : PriceEnv) (token_address : String) : Except String ℚ :=
  match get_token_price_from_pair env token_address BUSD with
  | some busd_price => .ok busd_price
  | none =>
    match get_token_price_from_pair env token_address WBNB with
    | some bnb_price =>
      match get_token_price_from_pair env WBNB BUSD with
      | some bnb_busd_price => .ok (bnb_price * bnb_busd_price)
      | none => .error ("No valid price path found for token " ++ token_address)
    | none => .error ("No valid price path found for token " ++ token_address)

/-! ## Opportunity records, ranking and filtering (defitrader.py) -/

/-- The fields of an opportunity dict that the ranking and filtering in
`defitrader.py` read: `expected_roi`, `risk_score`, `tvl`, the two
`metrics` sub-scores, and the address (an opaque identifier). -/
structure Opp where
  expected_roi : ℚ
  risk_score : ℚ
  tvl : ℚ
  protocol_score : ℚ
  liquidity_score : ℚ
  address : ℕ
deriving DecidableEq

/-- One insertion step of a stable descending sort on `expected_roi`:
`x` is placed before the first element whose ROI is `≤` its own. -/
def sortedInsertByRoi (x : Opp) : List Opp → List Opp
  | [] => [x]
  | y :: ys =>
    if y.expected_roi ≤ x.expected_roi then x :: y :: ys
    else y :: sortedInsertByRoi x ys

/-- Python's `sorted(opps, key=lambda x: x['expected_roi'], reverse=True)`:
a STABLE sort by `expected_roi` descending (ties keep input order). -/
def sortByRoiDesc : List Opp → List Opp
  | [] => []
  | x :: xs => sortedInsertByRoi x (sortByRoiDesc xs)

/-- `EnhancedTradingAgent.scan_all_opportunities`: concatenate every
strategy's opportunity list in strategy order, then sort by
`expected_roi` descending. -/
def scan_all_opportunities (strategy_results : List (List Opp)) : List Opp :=
  sortByRoiDesc strategy_results.flatten

/-- `YieldStrategy._filter_opportunities`: keep an opportunity iff none
of the five skip conditions fires. -/
def filter_opportunities (opportunities : List Opp) : List Opp :=
  opportunities.filter fun o =>
    decide (¬ o.expected_roi < 15/100 ∧ ¬ o.risk_score > 65/100 ∧ ¬ o.tvl < 500000 ∧
      ¬ o.protocol_score < 75/100 ∧ ¬ o.liquidity_score < 60/100)

/-- `YieldStrategy.scan_opportunities` (happy path): filter, then sort
by `expected_roi` descending. -/
def yieldStrategy_scan_opportunities (opportunities : List Opp) : List Opp :=
  sortByRoiDesc (filter_opportunities opportunities)

/-! ## Scan orchestration (strategies/YieldScanner.py) -/

/-- The raw per-pool payload a detail fetch produces (the concrete
fields are irrelevant to the orchestration claims; `tvl`/`apr`/`risk`
stand for the assembled dict). -/
structure PoolData where
  tvl : ℚ
  apr : ℚ
  risk : ℚ
deriving DecidableEq

/-- `YieldScanner._get_pancake_pool_info` (and its Venus/Alpaca/Biswap
siblings): the whole body is wrapped in `try`/`except` returning `None`,
so a failing fetch yields a per-item `none` and a succeeding one the
assembled record. -/
def get_pool_info (fetch : ℕ → Except String PoolData) (pid : ℕ) : Option PoolData :=
  match fetch pid with
  | .error _ => none
  | .ok d => some d

/-- `YieldScanner._scan_pancakeswap` (and its siblings): enumerate the
pool ids; on an enumeration failure the `except` clause returns the
opportunities collected so far (`[]`); otherwise gather every pool's
info and keep the non-`None` results in pool order. -/
def scan_protocol (enum : Except String ℕ) (fetch : ℕ → Except String PoolData) :
    List PoolData :=
  match enum with
  | .error _ => []
  | .ok pool_length => (List.range pool_length).filterMap (get_pool_info fetch)

/-- Modelled from the spec: the overall scan combinator
(`YieldScanner.format_for_trading_agent` / the cross-protocol
aggregation) is not present under `src/`; per §4.5 the orchestrator
collects each adapter's opportunities and concatenates them, a failing
adapter contributing zero opportunities. -/
def scan_overall (protocol_results : List (List PoolData)) : List PoolData :=
  protocol_results.flatten

/-! ## Theorems settling the claims -/

/-- C2: for every combination of non-negative inputs, the three
emission-weighted rate computations (`calculate_pancake_apr`,
`calculate_biswap_apr`, `calculate_alpaca_reward_apy`) return exactly 0
whenever the total allocation weight is 0 or the pool TVL is 0 — the
guard fires before any division, so no division fault or infinite rate
can arise. -/
theorem emission_rate_zero_guard
    (per_block total_alloc pool_alloc price tvl : ℚ)
    (hpb : 0 ≤ per_block) (hta : 0 ≤ total_alloc) (hpa : 0 ≤ pool_alloc)
    (hpr : 0 ≤ price) (htv : 0 ≤ tvl)
    (hzero : total_alloc = 0 ∨ tvl = 0) :
    calculate_pancake_apr per_block total_alloc pool_alloc price tvl = 0 ∧
    calculate_biswap_apr per_block total_alloc pool_alloc price tvl = 0 ∧
    calculate_alpaca_reward_apy per_block total_alloc pool_alloc price tvl = 0 := by
  refine ⟨?_, ?_, ?_⟩ <;>
    simp [calculate_pancake_apr, calculate_biswap_apr, calculate_alpaca_reward_apy, hzero]

/-- Witness for C2: at emission 5, total weight 0, pool weight 2,
price 1 and TVL 3, all three calculators return 0. -/
theorem emission_rate_zero_guard_witness :
    ((0 : ℚ) = 0 ∨ (3 : ℚ) = 0) ∧
    calculate_pancake_apr 5 0 2 1 3 = 0 ∧ calculate_biswap_apr 5 0 2 1 3 = 0 ∧
      calculate_alpaca_reward_apy 5 0 2 1 3 = 0 :=
  ⟨Or.inl rfl,
   emission_rate_zero_guard 5 0 2 1 3 (by norm_num) le_rfl (by norm_num) (by norm_num)
     (by norm_num) (Or.inl rfl)⟩

/-- C6 (code bug): `calculate_alpaca_base_apy` computes
`total_debt / total_token * 15%`, not the
`(total_token - total_debt) / total_token * 15%` that its own docstring
(and the spec) document.  At `total_token = 100`, `total_debt = 25` the
code returns 3.75 while the documented formula gives 11.25; the
`total_token = 0 → 0` part does hold. -/
theorem alpaca_base_apy_contradicts_docstring :
    calculate_alpaca_base_apy 100 25 = 15/4 ∧
    (100 - 25) / 100 * 15 = (45/4 : ℚ) ∧
    (15/4 : ℚ) ≠ 45/4 ∧
    calculate_alpaca_base_apy 0 7 = 0 := by
  norm_num [calculate_alpaca_base_apy]

/-- C8: the TVL-risk step function matches the spec's table
boundary-inclusively — the four documented sample points hold, and for
every TVL ≥ 0 the code's threshold loop agrees with the spec's
highest-threshold-met rule `tvlRiskSpec`. -/
theorem tvl_risk_table_spec (tvl : ℚ) (h : 0 ≤ tvl) :
    calculate_tvl_risk tvl = tvlRiskSpec tvl ∧
    calculate_tvl_risk 10000001 = 1/10 ∧ calculate_tvl_risk 10000000 = 1/10 ∧
    calculate_tvl_risk 9999999 = 3/10 ∧ calculate_tvl_risk 0 = 9/10 := by
  refine ⟨?_, ?_, ?_, ?_, ?_⟩
  · simp only [calculate_tvl_risk, TVL_THRESHOLDS, firstThresholdRisk, tvlRiskSpec]
    split_ifs <;> first | rfl | linarith
  all_goals norm_num [calculate_tvl_risk, TVL_THRESHOLDS, firstThresholdRisk]

/-- Witness for C8: at TVL 7,000,000 the code and the spec table agree
(and give 0.3). -/
theorem tvl_risk_table_spec_witness :
    (0 : ℚ) ≤ 7000000 ∧ calculate_tvl_risk 7000000 = tvlRiskSpec 7000000 :=
  ⟨by norm_num, (tvl_risk_table_spec 7000000 (by norm_num)).1⟩

/-- C4: `calculate_composite_risk_score` is clamped into `[0, 1]` for
every weight configuration and every input, and with the default
`RISK_WEIGHTS` and all five sub-scores in `[0, 1]` it equals exactly
`0.25*tvl + 0.20*volatility + 0.15*age + 0.20*il + 0.20*(1 - protocol)`
(the clamp is the identity there). -/
theorem composite_risk_score_spec (w : RiskWeights) (t v a il p : ℚ) :
    (0 ≤ calculate_composite_risk_score w t v a il p ∧
      calculate_composite_risk_score w t v a il p ≤ 1) ∧
    (0 ≤ t → t ≤ 1 → 0 ≤ v → v ≤ 1 → 0 ≤ a → a ≤ 1 → 0 ≤ il → il ≤ 1 →
      0 ≤ p → p ≤ 1 →
      calculate_composite_risk_score RISK_WEIGHTS t v a il p =
        25/100 * t + 20/100 * v + 15/100 * a + 20/100 * il + 20/100 * (1 - p)) := by
  constructor
  · exact ⟨le_min (by norm_num) (le_max_left 0 _), min_le_left _ _⟩
  · intro ht0 ht1 hv0 hv1 ha0 ha1 hi0 hi1 hp0 hp1
    simp only [calculate_composite_risk_score, RISK_WEIGHTS]
    rw [max_eq_right (by linarith), min_eq_right (by linarith)]
    ring

/-- Witness for C4: at sub-scores (1, 1/2, 0, 1/4, 3/4) with the
default weights, the composite is in `[0, 1]` and equals the documented
weighted sum. -/
theorem composite_risk_score_spec_witness :
    (0 ≤ calculate_composite_risk_score RISK_WEIGHTS 1 (1/2) 0 (1/4) (3/4) ∧
      calculate_composite_risk_score RISK_WEIGHTS 1 (1/2) 0 (1/4) (3/4) ≤ 1) ∧
    calculate_composite_risk_score RISK_WEIGHTS 1 (1/2) 0 (1/4) (3/4) =
      25/100 * 1 + 20/100 * (1/2) + 15/100 * 0 + 20/100 * (1/4) + 20/100 * (1 - 3/4) :=
  ⟨(composite_risk_score_spec RISK_WEIGHTS 1 (1/2) 0 (1/4) (3/4)).1,
   (composite_risk_score_spec RISK_WEIGHTS 1 (1/2) 0 (1/4) (3/4)).2
     (by norm_num) (by norm_num) (by norm_num) (by norm_num) (by norm_num)
     (by norm_num) (by norm_num) (by norm_num) (by norm_num) (by norm_num)⟩

/-- C5 (counterexample): at a raw per-block rate of `10^18` (i.e. a
normalized rate of 1), `calculate_venus_rates` returns the linear
annualization `10512000 * 100`, which is NOT the compounded value
`100 * ((1 + 1) ^ blocksPerYear - 1)` the claim prescribes. -/
theorem venus_rates_not_compounded :
    (calculate_venus_rates (10^18) (10^18)).1 = 1051200000 ∧
    (calculate_venus_rates (10^18) (10^18)).1 ≠
      100 * ((1 + (10^18 : ℚ) / PRECISION) ^ BLOCKS_PER_YEAR - 1) := by
  have h1 : (calculate_venus_rates (10^18) (10^18)).1 = 1051200000 := by
    norm_num [calculate_venus_rates, PRECISION, BLOCKS_PER_YEAR]
  have h2 : (1 + (10^18 : ℚ) / PRECISION) = 2 := by norm_num [PRECISION]
  refine ⟨h1, ?_⟩
  rw [h1, h2]
  intro h
  have hcast : ((2 ^ BLOCKS_PER_YEAR : ℕ) : ℚ) = (2 : ℚ) ^ BLOCKS_PER_YEAR := by
    push_cast; rfl
  have hlt : (10512001 : ℚ) < (2 : ℚ) ^ BLOCKS_PER_YEAR := by
    rw [← hcast]
    have hn : (10512001 : ℕ) < 2 ^ BLOCKS_PER_YEAR := by
      calc (10512001 : ℕ) < 2 ^ 24 := by norm_num
        _ ≤ 2 ^ BLOCKS_PER_YEAR :=
            Nat.pow_le_pow_right (by norm_num) (by norm_num [BLOCKS_PER_YEAR])
    exact_mod_cast hn
  linarith

/-- C5 (amended): `DataFetcher.get_lending_borrow_rates` does return the
compounded value `100 * ((1 + r) ^ blocksPerYear - 1)` for both rates,
while `APRCalculator.calculate_venus_rates` returns the SIMPLE (linear)
annualization `100 * (r * blocksPerYear)`; the linear value never
exceeds the compounded one (Bernoulli). -/
theorem venus_rates_linear_fetcher_compounded (s b : ℕ) :
    calculate_venus_rates s b =
      (100 * ((s : ℚ) * (BLOCKS_PER_YEAR : ℚ) / PRECISION),
       100 * ((b : ℚ) * (BLOCKS_PER_YEAR : ℚ) / PRECISION)) ∧
    get_lending_borrow_rates s b =
      (100 * ((1 + (s : ℚ) / PRECISION) ^ BLOCKS_PER_YEAR - 1),
       100 * ((1 + (b : ℚ) / PRECISION) ^ BLOCKS_PER_YEAR - 1)) ∧
    (calculate_venus_rates s b).1 ≤ (get_lending_borrow_rates s b).1 := by
  have hP : (0 : ℚ) < PRECISION := by norm_num [PRECISION]
  refine ⟨?_, ?_, ?_⟩
  · simp only [calculate_venus_rates, Prod.mk.injEq]
    constructor <;> ring
  · simp only [get_lending_borrow_rates, Prod.mk.injEq]
    constructor <;> ring
  · have hbern :
        1 + (BLOCKS_PER_YEAR : ℚ) * ((s : ℚ) / PRECISION) ≤
          (1 + (s : ℚ) / PRECISION) ^ BLOCKS_PER_YEAR := by
      refine one_add_mul_le_pow ?_ BLOCKS_PER_YEAR
      have : (0 : ℚ) ≤ (s : ℚ) / PRECISION := by positivity
      linarith
    have hrw : (s : ℚ) * (BLOCKS_PER_YEAR : ℚ) / PRECISION =
        (BLOCKS_PER_YEAR : ℚ) * ((s : ℚ) / PRECISION) := by ring
    simp only [calculate_venus_rates, get_lending_borrow_rates]
    nlinarith [hbern]

/-- An on-chain environment with no trading pairs at all: every factory
lookup returns the zero address (`none`). -/
def emptyPairEnv : PriceEnv :=
  { getPair := fun _ _ => none, reserves := fun _ => ⟨0, 0⟩, decimals := fun _ => 18 }

/-- C3 (counterexample): in an environment with no direct BUSD pair and
no WBNB path for the token, `PriceCalculator.get_token_price` does NOT
return an Unresolved / not-found value — it executes
`raise Exception(...)` (the `except` clause re-raises), modelled here as
`Except.error`, so the claim that it "returns ... rather than raising an
exception" is false. -/
theorem price_no_path_raises_counterexample :
    get_token_price emptyPairEnv "0xdead" =
      Except.error ("No valid price path found for token " ++ "0xdead") := rfl

/-- C3 (amended): whenever neither a direct BUSD pair nor a
token→WBNB pair yields a price, `PriceCalculator.get_token_price` raises
(`Except.error`) instead of returning a not-found value; the explicit
not-found outcome exists only one level down —
`_get_token_price_from_pair` returns `None` for a missing pair — and the
pool-info callers catch the exception and drop the pool. -/
theorem price_no_path_raises (env : PriceEnv) (token : String)
    (hbusd : get_token_price_from_pair env token BUSD = none)
    (hwbnb : get_token_price_from_pair env token WBNB = none) :
    get_token_price env token =
      Except.error ("No valid price path found for token " ++ token) ∧
    ∀ t0 t1, env.getPair t0 t1 = none → get_token_price_from_pair env t0 t1 = none := by
  constructor
  · simp [get_token_price, hbusd, hwbnb]
  · intro t0 t1 h
    simp [get_token_price_from_pair, h]

/-- Witness for C3 (amended): in the empty-pair environment the price
call errors out. -/
theorem price_no_path_raises_witness :
    get_token_price emptyPairEnv "0xdead" =
      Except.error ("No valid price path found for token " ++ "0xdead") :=
  (price_no_path_raises emptyPairEnv "0xdead" rfl rfl).1

/-- An environment holding one pair contract `"0xPAIR"` with raw
reserves `(1, 2)` and 18-decimals tokens; as on the real factory, both
lookup directions return the same pair. -/
def onePairEnv : PriceEnv :=
  { getPair := fun _ _ => some "0xPAIR", reserves := fun _ => ⟨1, 2⟩,
    decimals := fun _ => 18 }

/-- C7 (counterexample): `_get_token_price_from_pair` never consults the
pair's canonical `token0()`, so it returns the same ratio
`reserve1 / reserve0` for BOTH argument orders; with reserves `(1, 2)`
(both decimal-normalized reserves nonzero) the two directed prices are
both 2 and their product is 4, not ≈ 1. -/
theorem pair_price_product_counterexample :
    get_token_price_from_pair onePairEnv "0xA" "0xB" = some 2 ∧
    get_token_price_from_pair onePairEnv "0xB" "0xA" = some 2 ∧
    (2 : ℚ) * 2 ≠ 1 := by
  refine ⟨?_, ?_, by norm_num⟩ <;> norm_num [get_token_price_from_pair, onePairEnv]

/-- C7 (amended): for a pair with both decimal-normalized reserves
nonzero, found under both argument orders (factory symmetry), the two
directed prices multiply to `(reserve1 / reserve0) ^ 2` — the square of
the raw-reserve ratio — because the reserves are read in the pair's
canonical order regardless of argument order; the product is 1 only when
the raw reserves coincide, so `price(A,B) * price(B,A) ≈ 1` fails in
general. -/
theorem pair_price_product_squared (env : PriceEnv) (a b pair : String)
    (hab : env.getPair a b = some pair) (hba : env.getPair b a = some pair)
    (h0 : (env.reserves pair).reserve0 ≠ 0) (h1 : (env.reserves pair).reserve1 ≠ 0) :
    get_token_price_from_pair env a b =
      some ((((env.reserves pair).reserve1 : ℚ) / 10 ^ env.decimals b) /
        (((env.reserves pair).reserve0 : ℚ) / 10 ^ env.decimals a)) ∧
    get_token_price_from_pair env b a =
      some ((((env.reserves pair).reserve1 : ℚ) / 10 ^ env.decimals a) /
        (((env.reserves pair).reserve0 : ℚ) / 10 ^ env.decimals b)) ∧
    ((((env.reserves pair).reserve1 : ℚ) / 10 ^ env.decimals b) /
        (((env.reserves pair).reserve0 : ℚ) / 10 ^ env.decimals a)) *
      ((((env.reserves pair).reserve1 : ℚ) / 10 ^ env.decimals a) /
        (((env.reserves pair).reserve0 : ℚ) / 10 ^ env.decimals b)) =
      (((env.reserves pair).reserve1 : ℚ) / ((env.reserves pair).reserve0 : ℚ)) ^ 2 := by
  have hq0 : ((env.reserves pair).reserve0 : ℚ) ≠ 0 := Nat.cast_ne_zero.mpr h0
  have hq1 : ((env.reserves pair).reserve1 : ℚ) ≠ 0 := Nat.cast_ne_zero.mpr h1
  have hpa : (10 : ℚ) ^ env.decimals a ≠ 0 := by positivity
  have hpb : (10 : ℚ) ^ env.decimals b ≠ 0 := by positivity
  refine ⟨?_, ?_, ?_⟩
  · simp only [get_token_price_from_pair, hab]
    rw [if_neg]
    push_neg
    exact ⟨div_ne_zero hq0 hpa, div_ne_zero hq1 hpb⟩
  · simp only [get_token_price_from_pair, hba]
    rw [if_neg]
    push_neg
    exact ⟨div_ne_zero hq0 hpb, div_ne_zero hq1 hpa⟩
  · field_simp
    ring

/-- Witness for C7 (amended): in `onePairEnv` the directed prices are
2 and 2 and their product is `(2 / 1) ^ 2 = 4`. -/
theorem pair_price_product_squared_witness :
    get_token_price_from_pair onePairEnv "0xA" "0xB" =
      some ((((onePairEnv.reserves "0xPAIR").reserve1 : ℚ) / 10 ^ onePairEnv.decimals "0xB") /
        (((onePairEnv.reserves "0xPAIR").reserve0 : ℚ) / 10 ^ onePairEnv.decimals "0xA")) ∧
    get_token_price_from_pair onePairEnv "0xB" "0xA" =
      some ((((onePairEnv.reserves "0xPAIR").reserve1 : ℚ) / 10 ^ onePairEnv.decimals "0xA") /
        (((onePairEnv.reserves "0xPAIR").reserve0 : ℚ) / 10 ^ onePairEnv.decimals "0xB")) ∧
    ((((onePairEnv.reserves "0xPAIR").reserve1 : ℚ) / 10 ^ onePairEnv.decimals "0xB") /
        (((onePairEnv.reserves "0xPAIR").reserve0 : ℚ) / 10 ^ onePairEnv.decimals "0xA")) *
      ((((onePairEnv.reserves "0xPAIR").reserve1 : ℚ) / 10 ^ onePairEnv.decimals "0xA") /
        (((onePairEnv.reserves "0xPAIR").reserve0 : ℚ) / 10 ^ onePairEnv.decimals "0xB")) =
      (((onePairEnv.reserves "0xPAIR").reserve1 : ℚ) /
        ((onePairEnv.reserves "0xPAIR").reserve0 : ℚ)) ^ 2 :=
  pair_price_product_squared onePairEnv "0xA" "0xB" "0xPAIR" rfl rfl
    (by norm_num [onePairEnv]) (by norm_num [onePairEnv])

/-- Dropping a `pid` whose info is `none` from the enumeration does not
change a `filterMap` collection. -/
theorem filterMap_filter_ne_of_none {f : ℕ → Option PoolData} {bad : ℕ}
    (hf : f bad = none) :
    ∀ l : List ℕ, l.filterMap f = (l.filter (fun pid => pid ≠ bad)).filterMap f := by
  intro l
  induction l with
  | nil => rfl
  | cons x xs ih =>
    by_cases hx : x = bad
    · subst hx
      simp [List.filterMap_cons, hf, List.filter_cons, ih]
    · simp [List.filter_cons, hx, List.filterMap_cons, ih]

/-- C9: an adapter whose enumeration fails contributes `[]`, so the
overall scan (spec-modelled concatenation of the per-protocol scans)
returns exactly the succeeding protocol's opportunities; and a failure
while fetching one pool's detail makes `get_pool_info` return a
per-item `none`, so the protocol scan equals the scan with that pool
removed from the enumeration — the other pools are unaffected and the
batch is never aborted. -/
theorem scan_partial_failure_tolerance (e msg : String)
    (f1 f2 : ℕ → Except String PoolData) (n bad : ℕ)
    (hbad : f2 bad = .error msg) :
    scan_overall [scan_protocol (.error e) f1, scan_protocol (.ok n) f2] =
      scan_protocol (.ok n) f2 ∧
    get_pool_info f2 bad = none ∧
    scan_protocol (.ok n) f2 =
      ((List.range n).filter (fun pid => pid ≠ bad)).filterMap (get_pool_info f2) := by
  have hnone : get_pool_info f2 bad = none := by simp [get_pool_info, hbad]
  refine ⟨?_, hnone, ?_⟩
  · simp [scan_overall, scan_protocol]
  · simpa [scan_protocol] using
      filterMap_filter_ne_of_none hnone (List.range n)

/-- A concrete detail fetcher for the C9 witness: pool 1 fails with an
RPC error, every other pool succeeds. -/
def exampleFetch : ℕ → Except String PoolData :=
  fun pid => if pid = 1 then .error "RPC error" else .ok ⟨100, 5, 0⟩

/-- Witness for C9: with three pools of which pool 1 fails, the overall
scan keeps the succeeding protocol's two surviving opportunities. -/
theorem scan_partial_failure_tolerance_witness :
    scan_overall
        [scan_protocol (.error "cannot enumerate") (fun _ => .ok ⟨1, 1, 1⟩),
         scan_protocol (.ok 3) exampleFetch] =
      scan_protocol (.ok 3) exampleFetch ∧
    get_pool_info exampleFetch 1 = none ∧
    scan_protocol (.ok 3) exampleFetch =
      ((List.range 3).filter (fun pid => pid ≠ 1)).filterMap (get_pool_info exampleFetch) :=
  scan_partial_failure_tolerance "cannot enumerate" "RPC error"
    (fun _ => .ok ⟨1, 1, 1⟩) exampleFetch 3 1 rfl

/-- Ranking order of the output lists: non-increasing `expected_roi`. -/
def roiDescOrder (a b : Opp) : Prop := b.expected_roi ≤ a.expected_roi

/-- Inserting preserves multiset contents. -/
theorem sortedInsertByRoi_perm (x : Opp) (l : List Opp) :
    List.Perm (sortedInsertByRoi x l) (x :: l) := by
  induction l with
  | nil => exact List.Perm.refl _
  | cons y ys ih =>
    by_cases h : y.expected_roi ≤ x.expected_roi
    · rw [sortedInsertByRoi, if_pos h]
    · rw [sortedInsertByRoi, if_neg h]
      exact List.Perm.trans (ih.cons y) (List.Perm.swap x y ys)

/-- The stable sort is a permutation of its input. -/
theorem sortByRoiDesc_perm (l : List Opp) : List.Perm (sortByRoiDesc l) l := by
  induction l with
  | nil => exact List.Perm.refl _
  | cons x xs ih =>
    exact List.Perm.trans (sortedInsertByRoi_perm x (sortByRoiDesc xs)) (ih.cons x)

/-- Inserting into a non-increasing list keeps it non-increasing. -/
theorem sortedInsertByRoi_pairwise (x : Opp) {l : List Opp}
    (hl : l.Pairwise roiDescOrder) :
    (sortedInsertByRoi x l).Pairwise roiDescOrder := by
  induction l with
  | nil => simp [sortedInsertByRoi]
  | cons y ys ih =>
    rcases List.pairwise_cons.mp hl with ⟨hy, hys⟩
    by_cases h : y.expected_roi ≤ x.expected_roi
    · rw [sortedInsertByRoi, if_pos h]
      refine List.pairwise_cons.mpr ⟨?_, hl⟩
      intro z hz
      rcases List.mem_cons.mp hz with hz | hz
      · exact hz ▸ h
      · exact le_trans (hy z hz) h
    · rw [sortedInsertByRoi, if_neg h]
      refine List.pairwise_cons.mpr ⟨?_, ih hys⟩
      intro z hz
      have hz' : z ∈ x :: ys := (sortedInsertByRoi_perm x ys).mem_iff.mp hz
      rcases List.mem_cons.mp hz' with hz' | hz'
      · exact hz' ▸ le_of_lt (lt_of_not_le h)
      · exact hy z hz'

/-- The stable sort output is non-increasing in `expected_roi`. -/
theorem sortByRoiDesc_pairwise : ∀ l : List Opp,
    (sortByRoiDesc l).Pairwise roiDescOrder := by
  intro l
  induction l with
  | nil => simp [sortByRoiDesc]
  | cons x xs ih => exact sortedInsertByRoi_pairwise x ih

/-- Stability, insertion step, inserted element of the observed ROI:
every element the insertion walks past has strictly larger ROI, so the
inserted element leads the group with its ROI value. -/
theorem filter_sortedInsert_eq (x : Opp) (r : ℚ) (hx : x.expected_roi = r) :
    ∀ l : List Opp,
      (sortedInsertByRoi x l).filter (fun o => decide (o.expected_roi = r)) =
        x :: l.filter (fun o => decide (o.expected_roi = r)) := by
  intro l
  induction l with
  | nil => simp [sortedInsertByRoi, hx]
  | cons y ys ih =>
    by_cases h : y.expected_roi ≤ x.expected_roi
    · rw [sortedInsertByRoi, if_pos h]
      simp [List.filter_cons, hx]
    · rw [sortedInsertByRoi, if_neg h]
      have hy : ¬ y.expected_roi = r := ne_of_gt (hx ▸ lt_of_not_le h)
      simp [List.filter_cons, hy, ih]

/-- Stability, insertion step, inserted element of another ROI: the
group with the observed ROI value is untouched. -/
theorem filter_sortedInsert_ne (x : Opp) (r : ℚ) (hx : ¬ x.expected_roi = r) :
    ∀ l : List Opp,
      (sortedInsertByRoi x l).filter (fun o => decide (o.expected_roi = r)) =
        l.filter (fun o => decide (o.expected_roi = r)) := by
  intro l
  induction l with
  | nil => simp [sortedInsertByRoi, hx]
  | cons y ys ih =>
    by_cases h : y.expected_roi ≤ x.expected_roi
    · rw [sortedInsertByRoi, if_pos h]
      simp [List.filter_cons, hx]
    · rw [sortedInsertByRoi, if_neg h]
      simp [List.filter_cons, ih]

/-- Stability of the whole sort: for every ROI value, the elements
carrying it appear in the output in exactly their input order. -/
theorem filter_sortByRoiDesc (r : ℚ) :
    ∀ l : List Opp,
      (sortByRoiDesc l).filter (fun o => decide (o.expected_roi = r)) =
        l.filter (fun o => decide (o.expected_roi = r)) := by
  intro l
  induction l with
  | nil => rfl
  | cons x xs ih =>
    show (sortedInsertByRoi x (sortByRoiDesc xs)).filter _ = _
    by_cases hx : x.expected_roi = r
    · rw [filter_sortedInsert_eq x r hx (sortByRoiDesc xs), ih]
      simp [List.filter_cons, hx]
    · rw [filter_sortedInsert_ne x r hx (sortByRoiDesc xs), ih]
      simp [List.filter_cons, hx]

/-- C1 (counterexample): two opportunities with equal `expected_roi`,
the higher-risk one first in the input; `scan_all_opportunities` returns
them in input order (Python's `sorted` is stable and the key is only
`expected_roi`), so the lower-risk, lower-address opportunity comes
SECOND — the claimed ascending-risk/address tie-break does not exist. -/
theorem ranking_tiebreak_counterexample :
    scan_all_opportunities
        [[⟨1, 9/10, 1000000, 1, 1, 1⟩, ⟨1, 1/10, 1000000, 1, 1, 0⟩]] =
      [⟨1, 9/10, 1000000, 1, 1, 1⟩, ⟨1, 1/10, 1000000, 1, 1, 0⟩] ∧
    (⟨1, 9/10, 1000000, 1, 1, 1⟩ : Opp).expected_roi =
      (⟨1, 1/10, 1000000, 1, 1, 0⟩ : Opp).expected_roi ∧
    (⟨1, 1/10, 1000000, 1, 1, 0⟩ : Opp).risk_score <
      (⟨1, 9/10, 1000000, 1, 1, 1⟩ : Opp).risk_score ∧
    (⟨1, 1/10, 1000000, 1, 1, 0⟩ : Opp).address <
      (⟨1, 9/10, 1000000, 1, 1, 1⟩ : Opp).address := by
  refine ⟨?_, rfl, by norm_num, by norm_num⟩
  norm_num [scan_all_opportunities, sortByRoiDesc, sortedInsertByRoi]

/-- C1 (amended): the lists returned by
`EnhancedTradingAgent.scan_all_opportunities` and
`YieldStrategy.scan_opportunities` are sorted by `expected_roi`
descending and are permutations of (respectively) the concatenated
strategy results and the filtered opportunities; the sort is STABLE —
for every ROI value, equal-ROI opportunities keep their relative input
order — so there is no ascending-risk/address tie-break and the output
order is deterministic only given the input order. -/
theorem ranking_sorted_and_stable (strategy_results : List (List Opp))
    (opps : List Opp) (r : ℚ) :
    (scan_all_opportunities strategy_results).Pairwise roiDescOrder ∧
    List.Perm (scan_all_opportunities strategy_results) strategy_results.flatten ∧
    (scan_all_opportunities strategy_results).filter
        (fun o => decide (o.expected_roi = r)) =
      strategy_results.flatten.filter (fun o => decide (o.expected_roi = r)) ∧
    (yieldStrategy_scan_opportunities opps).Pairwise roiDescOrder ∧
    List.Perm (yieldStrategy_scan_opportunities opps) (filter_opportunities opps) ∧
    (yieldStrategy_scan_opportunities opps).filter
        (fun o => decide (o.expected_roi = r)) =
      (filter_opportunities opps).filter (fun o => decide (o.expected_roi = r)) :=
  ⟨sortByRoiDesc_pairwise _, sortByRoiDesc_perm _, filter_sortByRoiDesc r _,
   sortByRoiDesc_pairwise _, sortByRoiDesc_perm _, filter_sortByRoiDesc r _⟩

/-- C10: `calculate_pool_volatility` returns exactly `0.0` for any
price history with fewer than two entries (missing history scores as
minimum volatility risk, not as an error); for histories of length ≥ 2
with positive prices it returns
`min 1 (stdev(dailyReturns) * sqrt 365)`, which lies in `[0, 1]`. -/
theorem pool_volatility_spec (price_history : List ℚ) :
    (price_history.length < 2 → calculate_pool_volatility price_history = 0) ∧
    (2 ≤ price_history.length → (∀ p ∈ price_history, 0 < p) →
      calculate_pool_volatility price_history =
        min 1 (Real.sqrt (listVariance (dailyReturns price_history) : ℚ) *
          Real.sqrt 365) ∧
      0 ≤ calculate_pool_volatility price_history ∧
      calculate_pool_volatility price_history ≤ 1) := by
  constructor
  · intro h
    simp [calculate_pool_volatility, h]
  · intro hlen _hpos
    have hnot : ¬ price_history.length < 2 := not_lt.mpr hlen
    have heq : calculate_pool_volatility price_history =
        min 1 (Real.sqrt (listVariance (dailyReturns price_history) : ℚ) *
          Real.sqrt 365) := by
      simp [calculate_pool_volatility, hnot]
    refine ⟨heq, ?_, ?_⟩
    · rw [heq]
      exact le_min zero_le_one
        (mul_nonneg (Real.sqrt_nonneg _) (Real.sqrt_nonneg _))
    · rw [heq]
      exact min_le_left _ _

/-- Witness for C10: the empty history scores 0, and the two-point
history `[1, 2]` scores within `[0, 1]`. -/
theorem pool_volatility_spec_witness :
    calculate_pool_volatility [] = 0 ∧
    (0 ≤ calculate_pool_volatility [1, 2] ∧
      calculate_pool_volatility [1, 2] ≤ 1) :=
  ⟨(pool_volatility_spec []).1 (by norm_num),
   ⟨((pool_volatility_spec [1, 2]).2 (by norm_num)
       (by intro p hp; rcases List.mem_cons.mp hp with h | h
           · rw [h]; norm_num
           · rw [List.mem_singleton.mp h]; norm_num)).2.1,
    ((pool_volatility_spec [1, 2]).2 (by norm_num)
       (by intro p hp; rcases List.mem_cons.mp hp with h | h
           · rw [h]; norm_num
           · rw [List.mem_singleton.mp h]; norm_num)).2.2⟩⟩
